import Mathlib

/-!
Verification of the `imitation` documentation repository.

The repository consists of three tutorial notebooks
(`docs/tutorials/4_train_airl.ipynb`, `docs/tutorials/8_train_sqil.ipynb`,
`docs/tutorials/10_train_custom_env.ipynb`) and one documentation page with an
embedded example script (`docs/algorithms/airl.rst`).  The notebooks are thin
scripts over external libraries, so the embedding has two parts:

1. a small abstract syntax for the Python statements actually occurring in the
   notebook code cells, together with the full transcription of every code
   cell, so that structural claims (stage ordering, absence of error handling,
   configuration values, class/registration occurrences) can be decided by
   evaluation; and

2. an executable semantic model of the one piece of behavioural code the
   repository itself authors, the `ObservationMatchingEnv` class from
   `10_train_custom_env.ipynb`, used for the invariant / termination /
   determinism claims about that environment.

All recursive traversals of the syntax are written with explicit fuel so that
every predicate reduces in the kernel.
-/

/-! ## Python abstract syntax

Only the constructs that occur in the notebooks are represented.  Numeric
literals are split into integer literals and float literals written as a
fraction `num / den` (e.g. `0.0001` is `floatLit 1 10000`).  An f-string is a
list of parts, literal fragments as `strLit` and interpolations as the
interpolated expressions themselves.
-/

inductive PyExpr where
  | name (nm : String)
  | attr (obj : PyExpr) (field : String)
  | intLit (n : Int)
  | floatLit (num : Int) (den : Nat)
  | strLit (s : String)
  | boolLit (b : Bool)
  | noneLit
  | call (fn : PyExpr) (args : List PyExpr) (kwargs : List (String × PyExpr))
  | lam (params : List String) (body : PyExpr)
  | listLit (elems : List PyExpr)
  | listComp (elem : PyExpr) (var : String) (iter : PyExpr)
  | tupleLit (elems : List PyExpr)
  | subscript (obj : PyExpr) (idx : PyExpr)
  | fstr (parts : List PyExpr)
  | binop (op : String) (lhs : PyExpr) (rhs : PyExpr)
  | unop (op : String) (arg : PyExpr)
  | dictLit (entries : List (String × PyExpr))

/-- A Python statement.  Assignment targets are recorded as plain strings
(`"self.state"` for attribute targets, several strings for tuple targets such
as `reward, _ = ...`). -/
inductive PyStmt where
  | importMod (mod : String)
  | importModAs (mod : String) (al : String)
  | importFrom (mod : String) (names : List String)
  | assign (targets : List String) (value : PyExpr)
  | exprStmt (e : PyExpr)
  | funcDef (nm : String) (params : List String) (body : List PyStmt)
  | classDef (nm : String) (bases : List String) (body : List PyStmt)
  | ret (e : PyExpr)
  | tryExcept (body : List PyStmt) (handlers : List PyStmt)
      (orelse : List PyStmt) (finBody : List PyStmt)

/-- A notebook cell: markdown prose (whose text plays no role in any claim)
or a code cell holding its statements in order. -/
inductive Cell where
  | markdown
  | code (stmts : List PyStmt)

/-- All statements of the code cells of a notebook, in execution order. -/
def codeStmts (cells : List Cell) : List PyStmt :=
  cells.foldr (fun c acc => match c with
    | Cell.code s => s ++ acc
    | Cell.markdown => acc) []

/-- The statements of the last code cell of a notebook. -/
def lastCodeCell (cells : List Cell) : List PyStmt :=
  cells.foldl (fun acc c => match c with
    | Cell.code s => s
    | Cell.markdown => acc) []

/-! ## Transcription of `docs/tutorials/4_train_airl.ipynb` -/

def airlNotebook : List Cell := [
  Cell.markdown,
  Cell.markdown,
  Cell.code [
    .importModAs "numpy" "np",
    .importMod "seals",
    .importFrom "imitation.policies.serialize" ["load_policy"],
    .importFrom "imitation.util.util" ["make_vec_env"],
    .importFrom "imitation.data.wrappers" ["RolloutInfoWrapper"],
    .assign ["SEED"] (.intLit 42),
    .assign ["env"] (.call (.name "make_vec_env")
      [.strLit "seals/CartPole-v0"]
      [("rng", .call (.attr (.attr (.name "np") "random") "default_rng") [.name "SEED"] []),
       ("n_envs", .intLit 8),
       ("post_wrappers", .listLit
         [.lam ["env", "_"] (.call (.name "RolloutInfoWrapper") [.name "env"] [])])]),
    .assign ["expert"] (.call (.name "load_policy")
      [.strLit "ppo-huggingface"]
      [("organization", .strLit "HumanCompatibleAI"),
       ("env_name", .strLit "seals-CartPole-v0"),
       ("venv", .name "env")])
  ],
  Cell.markdown,
  Cell.code [
    .importFrom "imitation.data" ["rollout"],
    .assign ["rollouts"] (.call (.attr (.name "rollout") "rollout")
      [.name "expert", .name "env",
       .call (.attr (.name "rollout") "make_sample_until") []
         [("min_timesteps", .noneLit), ("min_episodes", .intLit 60)]]
      [("rng", .call (.attr (.attr (.name "np") "random") "default_rng") [.name "SEED"] [])])
  ],
  Cell.markdown,
  Cell.code [
    .importFrom "imitation.algorithms.adversarial.airl" ["AIRL"],
    .importFrom "imitation.rewards.reward_nets" ["BasicShapedRewardNet"],
    .importFrom "imitation.util.networks" ["RunningNorm"],
    .importFrom "stable_baselines3" ["PPO"],
    .importFrom "stable_baselines3.ppo" ["MlpPolicy"],
    .importFrom "stable_baselines3.common.evaluation" ["evaluate_policy"],
    .assign ["learner"] (.call (.name "PPO") []
      [("env", .name "env"), ("policy", .name "MlpPolicy"), ("batch_size", .intLit 16),
       ("ent_coef", .floatLit 0 1), ("learning_rate", .floatLit 1 10000),
       ("n_epochs", .intLit 2), ("seed", .name "SEED")]),
    .assign ["reward_net"] (.call (.name "BasicShapedRewardNet") []
      [("observation_space", .attr (.name "env") "observation_space"),
       ("action_space", .attr (.name "env") "action_space"),
       ("normalize_input_layer", .name "RunningNorm")]),
    .assign ["airl_trainer"] (.call (.name "AIRL") []
      [("demonstrations", .name "rollouts"), ("demo_batch_size", .intLit 1024),
       ("gen_replay_buffer_capacity", .intLit 2048),
       ("n_disc_updates_per_round", .intLit 4),
       ("venv", .name "env"), ("gen_algo", .name "learner"),
       ("reward_net", .name "reward_net")]),
    .exprStmt (.call (.attr (.name "env") "seed") [.name "SEED"] []),
    .assign ["learner_rewards_before_training", "_"] (.call (.name "evaluate_policy")
      [.name "learner", .name "env", .intLit 100]
      [("return_episode_rewards", .boolLit true)]),
    .exprStmt (.call (.attr (.name "airl_trainer") "train") [.intLit 20000] []),
    .exprStmt (.call (.attr (.name "env") "seed") [.name "SEED"] []),
    .assign ["learner_rewards_after_training", "_"] (.call (.name "evaluate_policy")
      [.name "learner", .name "env", .intLit 100]
      [("return_episode_rewards", .boolLit true)])
  ],
  Cell.markdown,
  Cell.code [
    .importModAs "matplotlib.pyplot" "plt",
    .exprStmt (.call (.name "print")
      [.strLit "mean reward after training:",
       .call (.attr (.name "np") "mean") [.name "learner_rewards_after_training"] []] []),
    .exprStmt (.call (.name "print")
      [.strLit "mean reward before training:",
       .call (.attr (.name "np") "mean") [.name "learner_rewards_before_training"] []] []),
    .exprStmt (.call (.attr (.name "plt") "hist")
      [.listLit [.name "learner_rewards_before_training",
                 .name "learner_rewards_after_training"]]
      [("label", .listLit [.strLit "untrained", .strLit "trained"])]),
    .exprStmt (.call (.attr (.name "plt") "legend") [] []),
    .exprStmt (.call (.attr (.name "plt") "show") [] [])
  ]
]

/-! ## Transcription of `docs/tutorials/8_train_sqil.ipynb` -/

def sqilNotebook : List Cell := [
  Cell.markdown,
  Cell.markdown,
  Cell.code [
    .importMod "datasets",
    .importFrom "stable_baselines3.common.vec_env" ["DummyVecEnv"],
    .importFrom "imitation.data" ["huggingface_utils"],
    .assign ["dataset"] (.call (.attr (.name "datasets") "load_dataset")
      [.strLit "HumanCompatibleAI/ppo-CartPole-v1"] []),
    .assign ["expert_trajectories"]
      (.call (.attr (.name "huggingface_utils") "TrajectoryDatasetSequence")
        [.subscript (.name "dataset") (.strLit "train")] [])
  ],
  Cell.markdown,
  Cell.code [
    .importFrom "imitation.data" ["rollout"],
    .assign ["trajectory_stats"] (.call (.attr (.name "rollout") "rollout_stats")
      [.name "expert_trajectories"] []),
    .exprStmt (.call (.name "print")
      [.fstr [.strLit "We have ",
              .subscript (.name "trajectory_stats") (.strLit "n_traj"),
              .strLit " trajectories.",
              .strLit "The average length of each trajectory is ",
              .subscript (.name "trajectory_stats") (.strLit "len_mean"),
              .strLit ".",
              .strLit "The average return of each trajectory is ",
              .subscript (.name "trajectory_stats") (.strLit "return_mean"),
              .strLit "."]] [])
  ],
  Cell.markdown,
  Cell.code [
    .importFrom "imitation.algorithms" ["sqil"],
    .importMod "gym",
    .assign ["venv"] (.call (.name "DummyVecEnv")
      [.listLit [.lam [] (.call (.attr (.name "gym") "make") [.strLit "CartPole-v1"] [])]] []),
    .assign ["sqil_trainer"] (.call (.attr (.name "sqil") "SQIL") []
      [("venv", .name "venv"),
       ("demonstrations", .name "expert_trajectories"),
       ("policy", .strLit "MlpPolicy")])
  ],
  Cell.markdown,
  Cell.code [
    .importFrom "stable_baselines3.common.evaluation" ["evaluate_policy"],
    .assign ["reward_before_training", "_"] (.call (.name "evaluate_policy")
      [.attr (.name "sqil_trainer") "policy", .name "venv", .intLit 10] []),
    .exprStmt (.call (.name "print")
      [.fstr [.strLit "Reward before training: ", .name "reward_before_training"]] [])
  ],
  Cell.markdown,
  Cell.code [
    .exprStmt (.call (.attr (.name "sqil_trainer") "train") []
      [("total_timesteps", .intLit 1000)]),
    .assign ["reward_after_training", "_"] (.call (.name "evaluate_policy")
      [.attr (.name "sqil_trainer") "policy", .name "venv", .intLit 10] []),
    .exprStmt (.call (.name "print")
      [.fstr [.strLit "Reward after training: ", .name "reward_after_training"]] [])
  ]
]

/-! ## Transcription of `docs/tutorials/10_train_custom_env.ipynb`

The only class the repository defines anywhere: `ObservationMatchingEnv`.
The `__init__` parameter `num_options` carries the default value `2` in the
source; parameter defaults are not represented in the syntax. -/

def observationMatchingClassDef : PyStmt :=
  .classDef "ObservationMatchingEnv" ["gym.Env"] [
    .funcDef "__init__" ["self", "num_options"] [
      .assign ["self.num_options"] (.name "num_options"),
      .assign ["self.observation_space"] (.call (.name "Box") [.intLit 0, .intLit 1]
        [("shape", .tupleLit [.name "num_options"]),
         ("dtype", .attr (.name "np") "float32")]),
      .assign ["self.action_space"] (.call (.name "Box") [.intLit 0, .intLit 1]
        [("shape", .tupleLit [.name "num_options"]),
         ("dtype", .attr (.name "np") "float32")]),
      .exprStmt (.call (.attr (.name "self") "seed") [] [])
    ],
    .funcDef "seed" ["self", "seed"] [
      .assign ["self.np_random", "seed"]
        (.call (.attr (.name "seeding") "np_random") [.name "seed"] []),
      .ret (.listLit [.name "seed"])
    ],
    .funcDef "reset" ["self"] [
      .assign ["self.state"]
        (.call (.attr (.attr (.name "self") "np_random") "uniform") []
          [("size", .attr (.name "self") "num_options")]),
      .ret (.attr (.name "self") "state")
    ],
    .funcDef "step" ["self", "action"] [
      .assign ["reward"] (.unop "-"
        (.call (.attr (.call (.attr (.name "np") "abs")
          [.binop "-" (.attr (.name "self") "state") (.name "action")] []) "mean") [] [])),
      .assign ["self.state"]
        (.call (.attr (.attr (.name "self") "np_random") "uniform") []
          [("size", .attr (.name "self") "num_options")]),
      .ret (.tupleLit [.attr (.name "self") "state", .name "reward",
                       .boolLit false, .dictLit []])
    ]
  ]

def customEnvNotebook : List Cell := [
  Cell.markdown,
  Cell.markdown,
  Cell.markdown,
  Cell.code [
    .importModAs "numpy" "np",
    .importMod "gym",
    .importFrom "gym.spaces" ["Box"],
    .importFrom "gym.utils" ["seeding"],
    observationMatchingClassDef
  ],
  Cell.markdown,
  Cell.markdown,
  Cell.markdown,
  Cell.markdown,
  Cell.code [
    .exprStmt (.call (.attr (.name "gym") "register") []
      [("id", .strLit "custom/ObservationMatching-v0"),
       ("entry_point", .name "ObservationMatchingEnv"),
       ("max_episode_steps", .intLit 500)])
  ],
  Cell.markdown,
  Cell.code [
    .importFrom "gym.wrappers" ["TimeLimit"],
    .importFrom "imitation.data" ["rollout"],
    .importFrom "imitation.data.wrappers" ["RolloutInfoWrapper"],
    .importFrom "imitation.util.util" ["make_vec_env"],
    .importFrom "stable_baselines3.common.vec_env" ["DummyVecEnv", "SubprocVecEnv"],
    .assign ["env"] (.call (.attr (.name "gym") "make")
      [.strLit "custom/ObservationMatching-v0"] []),
    .assign ["venv"] (.call (.name "make_vec_env")
      [.strLit "custom/ObservationMatching-v0"]
      [("rng", .call (.attr (.attr (.name "np") "random") "default_rng") [] []),
       ("n_envs", .intLit 4),
       ("post_wrappers", .listLit
         [.lam ["env", "_"] (.call (.name "RolloutInfoWrapper") [.name "env"] [])])])
  ],
  Cell.markdown,
  Cell.code [
    .importFrom "gym.wrappers" ["TimeLimit"],
    .importFrom "imitation.data" ["rollout"],
    .importFrom "imitation.data.wrappers" ["RolloutInfoWrapper"],
    .importFrom "stable_baselines3.common.vec_env" ["DummyVecEnv"],
    .importModAs "numpy" "np",
    .assign ["env"] (.call (.name "ObservationMatchingEnv") [] []),
    .assign ["env"] (.call (.name "TimeLimit") [.name "env"]
      [("max_episode_steps", .intLit 500)]),
    .funcDef "_make_env" [] [
      .assign ["_env"] (.call (.name "ObservationMatchingEnv") [] []),
      .assign ["_env"] (.call (.name "TimeLimit") [.name "_env"]
        [("max_episode_steps", .intLit 500)]),
      .assign ["_env"] (.call (.name "RolloutInfoWrapper") [.name "_env"] []),
      .ret (.name "_env")
    ],
    .assign ["venv"] (.call (.name "DummyVecEnv")
      [.listComp (.name "_make_env") "_" (.call (.name "range") [.intLit 4] [])] [])
  ],
  Cell.markdown,
  Cell.markdown,
  Cell.code [
    .importFrom "stable_baselines3" ["PPO"],
    .importFrom "stable_baselines3.ppo" ["MlpPolicy"],
    .importFrom "stable_baselines3.common.evaluation" ["evaluate_policy"],
    .importFrom "gym.wrappers" ["TimeLimit"],
    .assign ["expert"] (.call (.name "PPO") []
      [("policy", .name "MlpPolicy"), ("env", .name "env"), ("seed", .intLit 0),
       ("batch_size", .intLit 64), ("ent_coef", .floatLit 0 1),
       ("learning_rate", .floatLit 3 10000), ("n_epochs", .intLit 10),
       ("n_steps", .intLit 64)]),
    .assign ["reward", "_"] (.call (.name "evaluate_policy")
      [.name "expert", .name "env", .intLit 10] []),
    .exprStmt (.call (.name "print")
      [.fstr [.strLit "Reward before training: ", .name "reward"]] []),
    .exprStmt (.call (.attr (.name "expert") "learn") [.intLit 10000] []),
    .assign ["reward", "_"] (.call (.name "evaluate_policy")
      [.name "expert", .name "env", .intLit 10] []),
    .exprStmt (.call (.name "print")
      [.fstr [.strLit "Expert reward: ", .name "reward"]] [])
  ],
  Cell.code [
    .assign ["rng"] (.call (.attr (.attr (.name "np") "random") "default_rng") [] []),
    .assign ["rollouts"] (.call (.attr (.name "rollout") "rollout")
      [.name "expert", .name "venv",
       .call (.attr (.name "rollout") "make_sample_until") []
         [("min_timesteps", .noneLit), ("min_episodes", .intLit 50)]]
      [("rng", .name "rng")]),
    .assign ["transitions"] (.call (.attr (.name "rollout") "flatten_trajectories")
      [.name "rollouts"] [])
  ],
  Cell.code [
    .importFrom "imitation.algorithms" ["bc"],
    .assign ["bc_trainer"] (.call (.attr (.name "bc") "BC") []
      [("observation_space", .attr (.name "env") "observation_space"),
       ("action_space", .attr (.name "env") "action_space"),
       ("demonstrations", .name "transitions"),
       ("rng", .name "rng")])
  ],
  Cell.markdown,
  Cell.code [
    .assign ["reward_before_training", "_"] (.call (.name "evaluate_policy")
      [.attr (.name "bc_trainer") "policy", .name "env", .intLit 10] []),
    .exprStmt (.call (.name "print")
      [.fstr [.strLit "Reward before training: ", .name "reward_before_training"]] [])
  ],
  Cell.markdown,
  Cell.code [
    .exprStmt (.call (.attr (.name "bc_trainer") "train") [] [("n_epochs", .intLit 1)]),
    .assign ["reward_after_training", "_"] (.call (.name "evaluate_policy")
      [.attr (.name "bc_trainer") "policy", .name "env", .intLit 10] []),
    .exprStmt (.call (.name "print")
      [.fstr [.strLit "Reward after training: ", .name "reward_after_training"]] [])
  ]
]

/-! ## Transcription of the example script in `docs/algorithms/airl.rst`

The `testcode` block of the AIRL documentation page.  It differs from the
notebook in a few details (no `ent_coef` keyword, `make_sample_until` called
with `min_episodes` only, no plotting). -/

def airlDocsExample : List PyStmt := [
  .importModAs "numpy" "np",
  .importMod "seals",
  .importFrom "stable_baselines3" ["PPO"],
  .importFrom "stable_baselines3.common.evaluation" ["evaluate_policy"],
  .importFrom "stable_baselines3.ppo" ["MlpPolicy"],
  .importFrom "imitation.algorithms.adversarial.airl" ["AIRL"],
  .importFrom "imitation.data" ["rollout"],
  .importFrom "imitation.data.wrappers" ["RolloutInfoWrapper"],
  .importFrom "imitation.policies.serialize" ["load_policy"],
  .importFrom "imitation.rewards.reward_nets" ["BasicShapedRewardNet"],
  .importFrom "imitation.util.networks" ["RunningNorm"],
  .importFrom "imitation.util.util" ["make_vec_env"],
  .assign ["SEED"] (.intLit 42),
  .assign ["env"] (.call (.name "make_vec_env")
    [.strLit "seals/CartPole-v0"]
    [("rng", .call (.attr (.attr (.name "np") "random") "default_rng") [.name "SEED"] []),
     ("n_envs", .intLit 8),
     ("post_wrappers", .listLit
       [.lam ["env", "_"] (.call (.name "RolloutInfoWrapper") [.name "env"] [])])]),
  .assign ["expert"] (.call (.name "load_policy")
    [.strLit "ppo-huggingface"]
    [("organization", .strLit "HumanCompatibleAI"),
     ("env_name", .strLit "seals-CartPole-v0"),
     ("venv", .name "env")]),
  .assign ["rollouts"] (.call (.attr (.name "rollout") "rollout")
    [.name "expert", .name "env",
     .call (.attr (.name "rollout") "make_sample_until") []
       [("min_episodes", .intLit 60)]]
    [("rng", .call (.attr (.attr (.name "np") "random") "default_rng") [.name "SEED"] [])]),
  .assign ["learner"] (.call (.name "PPO") []
    [("env", .name "env"), ("policy", .name "MlpPolicy"), ("batch_size", .intLit 16),
     ("learning_rate", .floatLit 1 10000), ("n_epochs", .intLit 2),
     ("seed", .name "SEED")]),
  .assign ["reward_net"] (.call (.name "BasicShapedRewardNet") []
    [("observation_space", .attr (.name "env") "observation_space"),
     ("action_space", .attr (.name "env") "action_space"),
     ("normalize_input_layer", .name "RunningNorm")]),
  .assign ["airl_trainer"] (.call (.name "AIRL") []
    [("demonstrations", .name "rollouts"), ("demo_batch_size", .intLit 1024),
     ("gen_replay_buffer_capacity", .intLit 2048),
     ("n_disc_updates_per_round", .intLit 4),
     ("venv", .name "env"), ("gen_algo", .name "learner"),
     ("reward_net", .name "reward_net")]),
  .exprStmt (.call (.attr (.name "env") "seed") [.name "SEED"] []),
  .assign ["learner_rewards_before_training", "_"] (.call (.name "evaluate_policy")
    [.name "learner", .name "env", .intLit 100]
    [("return_episode_rewards", .boolLit true)]),
  .exprStmt (.call (.attr (.name "airl_trainer") "train") [.intLit 20000] []),
  .exprStmt (.call (.attr (.name "env") "seed") [.name "SEED"] []),
  .assign ["learner_rewards_after_training", "_"] (.call (.name "evaluate_policy")
    [.name "learner", .name "env", .intLit 100]
    [("return_episode_rewards", .boolLit true)]),
  .exprStmt (.call (.name "print")
    [.strLit "mean reward after training:",
     .call (.attr (.name "np") "mean") [.name "learner_rewards_after_training"] []] []),
  .exprStmt (.call (.name "print")
    [.strLit "mean reward before training:",
     .call (.attr (.name "np") "mean") [.name "learner_rewards_before_training"] []] [])
]

/-! ## Structural queries over the syntax

Recursive traversals take an explicit fuel argument (structural recursion on
the fuel) so that every query reduces by `decide` in the kernel.  The fuel
`8` is far above the nesting depth of the transcribed code (at most a class
body containing method bodies, depth three). -/

/-- The dotted name of a call target, e.g. `rollout.rollout` or
`sqil_trainer.train`; empty for call targets that are not dotted names. -/
def calleeStr : Nat → PyExpr → String
  | _, .name s => s
  | Nat.succ fuel, .attr obj field => calleeStr fuel obj ++ "." ++ field
  | _, _ => ""

/-- Does the expression mention the variable `v` anywhere? -/
def mentionsName : Nat → String → PyExpr → Bool
  | _, v, .name s => s == v
  | Nat.succ f, v, .attr obj _ => mentionsName f v obj
  | Nat.succ f, v, .call fn args kwargs =>
      mentionsName f v fn || args.any (mentionsName f v)
        || kwargs.any (fun p => mentionsName f v p.2)
  | Nat.succ f, v, .lam _ body => mentionsName f v body
  | Nat.succ f, v, .listLit es => es.any (mentionsName f v)
  | Nat.succ f, v, .listComp el _ it => mentionsName f v el || mentionsName f v it
  | Nat.succ f, v, .tupleLit es => es.any (mentionsName f v)
  | Nat.succ f, v, .subscript obj idx => mentionsName f v obj || mentionsName f v idx
  | Nat.succ f, v, .fstr parts => parts.any (mentionsName f v)
  | Nat.succ f, v, .binop _ lhs rhs => mentionsName f v lhs || mentionsName f v rhs
  | Nat.succ f, v, .unop _ arg => mentionsName f v arg
  | Nat.succ f, v, .dictLit entries => entries.any (fun p => mentionsName f v p.2)
  | _, _, _ => false

/-- The statement lists nested directly inside a statement. -/
def subBodies : PyStmt → List PyStmt
  | .funcDef _ _ body => body
  | .classDef _ _ body => body
  | .tryExcept body handlers orelse finBody => body ++ handlers ++ orelse ++ finBody
  | _ => []

def isTryStmt : PyStmt → Bool
  | .tryExcept _ _ _ _ => true
  | _ => false

def hasTryFuel : Nat → PyStmt → Bool
  | 0, s => isTryStmt s
  | Nat.succ f, s => isTryStmt s || (subBodies s).any (hasTryFuel f)

/-- Does any statement of the script contain a `try`/`except` construct,
at any nesting depth? -/
def hasErrorHandling (stmts : List PyStmt) : Bool :=
  stmts.any (hasTryFuel 8)

/-- Names of the classes defined at the top level of a script. -/
def classDefNames (stmts : List PyStmt) : List String :=
  stmts.filterMap fun s => match s with
    | .classDef nm _ _ => some nm
    | _ => none

/-- Does the script define a `gym.Env` subclass carrying its own `reset` and
`step` dynamics, i.e. an environment entity authored by this repository? -/
def definesGymEnvSubclass (stmts : List PyStmt) : Bool :=
  stmts.any fun s => match s with
    | .classDef _ bases body =>
        bases.contains "gym.Env"
          && body.any (fun m => match m with
               | .funcDef "reset" _ _ => true
               | _ => false)
          && body.any (fun m => match m with
               | .funcDef "step" _ _ => true
               | _ => false)
    | _ => false

/-- Keyword-argument lookup. -/
def kwargLookup (kwargs : List (String × PyExpr)) (key : String) : Option PyExpr :=
  (kwargs.find? (fun p => p.1 == key)).map (fun p => p.2)

/-- The keyword arguments of each `gym.register(...)` call of a script. -/
def registerCallKwargs (stmts : List PyStmt) : List (List (String × PyExpr)) :=
  stmts.filterMap fun s => match s with
    | .exprStmt (.call (.attr (.name "gym") "register") _ kwargs) => some kwargs
    | _ => none

/-- The `id` string of the first `gym.register` call of a script, if any. -/
def registerId (stmts : List PyStmt) : Option String :=
  match registerCallKwargs stmts with
  | kw :: _ => match kwargLookup kw "id" with
    | some (.strLit s) => some s
    | _ => none
  | [] => none

/-- The `entry_point` of the first `gym.register` call of a script, if any. -/
def registerEntryPoint (stmts : List PyStmt) : Option String :=
  match registerCallKwargs stmts with
  | kw :: _ => match kwargLookup kw "entry_point" with
    | some (.name s) => some s
    | _ => none
  | [] => none

/-- The `max_episode_steps` of the first `gym.register` call of a script. -/
def registeredMaxEpisodeSteps (stmts : List PyStmt) : Option Int :=
  match registerCallKwargs stmts with
  | kw :: _ => match kwargLookup kw "max_episode_steps" with
    | some (.intLit n) => some n
    | _ => none
  | [] => none

/-- Does the script define a class or register an environment entry point,
i.e. act as a provider (rather than a mere consumer) of an external-library
interface? -/
def providesInterface (stmts : List PyStmt) : Bool :=
  !(classDefNames stmts).isEmpty || !(registerCallKwargs stmts).isEmpty

/-! ### Vectorized-environment constructions and concurrency -/

/-- The number of environments described by the list argument of a `VecEnv`
constructor: an explicit list literal, or a comprehension over `range(k)`. -/
def listArgLen : PyExpr → Option Nat
  | .listLit es => some es.length
  | .listComp _ _ (.call (.name "range") [.intLit k] _) => some k.toNat
  | _ => none

/-- The count of parallel environments requested by a vectorized-environment
construction: the `n_envs` literal of a `make_vec_env` call, or the length of
the constructor list passed to `DummyVecEnv` / `SubprocVecEnv`. -/
def vecEnvCountOf : PyExpr → Option Nat
  | .call (.name "make_vec_env") _ kwargs =>
      match kwargLookup kwargs "n_envs" with
      | some (.intLit k) => some k.toNat
      | _ => none
  | .call (.name "DummyVecEnv") (a :: _) _ => listArgLen a
  | .call (.name "SubprocVecEnv") (a :: _) _ => listArgLen a
  | _ => none

/-- The counts of all vectorized-environment constructions of a script, in
order of occurrence. -/
def vecEnvCounts (stmts : List PyStmt) : List Nat :=
  stmts.filterMap fun s => match s with
    | .assign _ v => vecEnvCountOf v
    | .exprStmt v => vecEnvCountOf v
    | _ => none

def concurrencyModules : List String :=
  ["threading", "multiprocessing", "asyncio", "concurrent.futures"]

/-- Does the script import any Python concurrency module?  (Concurrent
control logic in Python requires one of these; the notebooks never import
them, all parallelism living behind the external `VecEnv` constructors.) -/
def usesConcurrencyModule (stmts : List PyStmt) : Bool :=
  stmts.any fun s => match s with
    | .importMod m => concurrencyModules.contains m
    | .importModAs m _ => concurrencyModules.contains m
    | .importFrom m _ => concurrencyModules.contains m
    | _ => false

/-! ### Stage classification for the tutorial flow -/

/-- The six stages named by the specification's flow description. -/
inductive Stage where
  | constructEnv
  | acquireExpert
  | collectRollouts
  | constructLearner
  | trainLoop
  | evaluateLearner
deriving DecidableEq, Repr

/-- Position of a stage in the claimed fixed order. -/
def Stage.idx : Stage → Nat
  | .constructEnv => 0
  | .acquireExpert => 1
  | .collectRollouts => 2
  | .constructLearner => 3
  | .trainLoop => 4
  | .evaluateLearner => 5

/-- Call targets that construct (or wrap) an environment. -/
def envCtorNames : List String :=
  ["make_vec_env", "gym.make", "DummyVecEnv", "SubprocVecEnv", "TimeLimit",
   "ObservationMatchingEnv"]

/-- Call targets that acquire demonstration data (expert trajectories or
rollouts). -/
def demoAcquisitionNames : List String :=
  ["datasets.load_dataset", "huggingface_utils.TrajectoryDatasetSequence",
   "rollout.rollout", "rollout.flatten_trajectories"]

/-- Call targets that construct the learner / discriminator side. -/
def learnerCtorNames : List String :=
  ["AIRL", "sqil.SQIL", "bc.BC", "BasicShapedRewardNet"]

/-- Call targets that run a trainer's training loop. -/
def trainerTrainNames : List String :=
  ["airl_trainer.train", "sqil_trainer.train", "bc_trainer.train"]

/-- Is the expression the learner-side policy, as passed to
`evaluate_policy`?  (`learner` in the AIRL notebook, `sqil_trainer.policy`
and `bc_trainer.policy` in the others; `expert` is the expert's policy and
does not match.) -/
def isLearnerPolicyArg : PyExpr → Bool
  | .name "learner" => true
  | .attr (.name "sqil_trainer") "policy" => true
  | .attr (.name "bc_trainer") "policy" => true
  | _ => false

/-- Classify a top-level statement as one of the six flow stages, when it is
one.  `PPO(...)` builds the expert when assigned to `expert` and the
generator/learner when assigned to `learner`; `expert.learn(...)` trains the
expert; evaluation counts as a stage only when it evaluates the learner. -/
def stageOf : PyStmt → Option Stage
  | .assign tgts (.call fn args _) =>
      let c := calleeStr 8 fn
      if envCtorNames.contains c then some Stage.constructEnv
      else if c == "load_policy" then some Stage.acquireExpert
      else if c == "PPO" then
        (if tgts.contains "expert" then some Stage.acquireExpert
         else some Stage.constructLearner)
      else if demoAcquisitionNames.contains c then some Stage.collectRollouts
      else if learnerCtorNames.contains c then some Stage.constructLearner
      else if c == "evaluate_policy" then
        (match args with
         | a :: _ => if isLearnerPolicyArg a then some Stage.evaluateLearner else none
         | [] => none)
      else none
  | .exprStmt (.call fn _ _) =>
      let c := calleeStr 8 fn
      if c == "expert.learn" then some Stage.acquireExpert
      else if trainerTrainNames.contains c then some Stage.trainLoop
      else none
  | _ => none

/-- The stage events of a script, in execution order. -/
def stagesOf (stmts : List PyStmt) : List Stage :=
  stmts.filterMap stageOf

/-- Is a stage sequence nondecreasing in the claimed fixed order? -/
def stageMonotone : List Stage → Bool
  | [] => true
  | [_] => true
  | a :: b :: rest => (a.idx ≤ b.idx : Bool) && stageMonotone (b :: rest)

/-- Does an element satisfying `p` occur strictly before one satisfying `q`? -/
def occursBefore {α : Type} (p q : α → Bool) : List α → Bool
  | [] => false
  | a :: rest => (p a && rest.any q) || occursBefore p q rest

/-- The partial order that does hold in every tutorial: environment before
learner, demonstrations before learner, learner before the training loop,
training loop before a (final) evaluation, evaluation last; and when an
expert policy is acquired at all, environment before expert and expert
before demonstrations. -/
def coreOrdered (l : List Stage) : Bool :=
  occursBefore (· == Stage.constructEnv) (· == Stage.constructLearner) l
  && occursBefore (· == Stage.collectRollouts) (· == Stage.constructLearner) l
  && occursBefore (· == Stage.constructLearner) (· == Stage.trainLoop) l
  && occursBefore (· == Stage.trainLoop) (· == Stage.evaluateLearner) l
  && (l.getLast? == some Stage.evaluateLearner)
  && (!(l.contains Stage.acquireExpert)
      || (occursBefore (· == Stage.constructEnv) (· == Stage.acquireExpert) l
          && occursBefore (· == Stage.acquireExpert) (· == Stage.collectRollouts) l))

/-! ### Printing of the post-training evaluation result -/

/-- Is the statement a call to a trainer's `.train(...)` method? -/
def isTrainCall : PyStmt → Bool
  | .exprStmt (.call (.attr _ "train") _ _) => true
  | _ => false

/-- Is the statement an assignment of `v` from `evaluate_policy` applied to
the learner-side policy? -/
def isLearnerEvalAssign (v : String) : PyStmt → Bool
  | .assign tgts (.call (.name "evaluate_policy") (a :: _) _) =>
      (tgts.headD "" == v) && isLearnerPolicyArg a
  | _ => false

/-- Does some statement print (mention inside a `print` call) variable `v`? -/
def printsVar (v : String) (stmts : List PyStmt) : Bool :=
  stmts.any fun s => match s with
    | .exprStmt (.call (.name "print") args _) => args.any (mentionsName 8 v)
    | _ => false

/-- Does some `print` statement apply `np.mean` to variable `v`? -/
def printAppliesMean (v : String) (stmts : List PyStmt) : Bool :=
  stmts.any fun s => match s with
    | .exprStmt (.call (.name "print") args _) =>
        args.any fun a => match a with
          | .call (.attr (.name "np") "mean") [PyExpr.name w] _ => w == v
          | _ => false
    | _ => false

/-- Is `v` assigned from an `evaluate_policy` call left in its default mode,
in which the returned scalar is the mean episode reward? -/
def evalReturnsMean (v : String) (stmts : List PyStmt) : Bool :=
  stmts.any fun s => match s with
    | .assign tgts (.call (.name "evaluate_policy") _ kwargs) =>
        (tgts.headD "" == v) && !(kwargs.any fun p => p.1 == "return_episode_rewards")
    | _ => false

/-- The notebook evaluates the learner after the training-loop call, binding
the result to `v`, and its final code cell prints a mean reward obtained
from `v` (either by applying `np.mean` in the print, or because
`evaluate_policy` already returned the mean). -/
def printsMeanRewardAfterTraining (cells : List Cell) (v : String) : Bool :=
  occursBefore isTrainCall (isLearnerEvalAssign v) (codeStmts cells)
  && printsVar v (lastCodeCell cells)
  && (printAppliesMean v (lastCodeCell cells) || evalReturnsMean v (codeStmts cells))

/-! ## Semantic model of `ObservationMatchingEnv`

The class from `10_train_custom_env.ipynb` holds a numpy random generator
(`self.np_random`), an option count, and a current observation vector
(`self.state`, unset until the first `reset`).  The numpy generator itself is
external; it is modelled as the seed it was created from plus a draw counter,
with the actual value stream given by a parameter
`gen : Nat → Nat → ℚ` (seed and draw index to value).  numpy's documented
contract that `uniform()` draws lie in the half-open interval `[0, 1)`
becomes the hypothesis `∀ s i, 0 ≤ gen s i ∧ gen s i < 1` where a claim needs
it.  Real-valued observations and rewards are modelled as rationals. -/

/-- State of a numpy random generator: its seed and how many values it has
produced so far. -/
structure NpRandom where
  seedVal : Nat
  counter : Nat
deriving DecidableEq, Repr

/-- `self.np_random.uniform(size=n)`: draw the next `n` values of the
stream and advance the generator. -/
def NpRandom.uniform (gen : Nat → Nat → ℚ) (r : NpRandom) (size : Nat) :
    List ℚ × NpRandom :=
  ((List.range size).map fun i => gen r.seedVal (r.counter + i),
   ⟨r.seedVal, r.counter + size⟩)

namespace Seeding

/-- `gym.utils.seeding.np_random(seed)`: returns a fresh generator and the
integer seed actually used.  When `seed` is `None` numpy draws a seed from
OS entropy; that draw is the explicit `entropy` argument here. -/
def np_random (seed : Option Nat) (entropy : Nat) : NpRandom × Nat :=
  let s := seed.getD entropy
  (⟨s, 0⟩, s)

end Seeding

/-- The environment's attributes.  `state` is `none` until the first
`reset` assigns it (reading it earlier raises in Python). -/
structure ObservationMatchingEnv where
  num_options : Nat
  np_random : NpRandom
  state : Option (List ℚ)
deriving DecidableEq, Repr

/-- `ObservationMatchingEnv(num_options)`: `__init__` stores the spaces
(external objects, not part of the model) and calls `self.seed()`, i.e.
`seed(None)`. -/
def ObservationMatchingEnv.init (num_options : Nat) (entropy : Nat) :
    ObservationMatchingEnv :=
  { num_options := num_options
    np_random := (Seeding.np_random none entropy).1
    state := none }

/-- `env.seed(seed)`: replace the generator and return `[seed]` for the seed
actually used. -/
def ObservationMatchingEnv.seed (e : ObservationMatchingEnv)
    (s : Option Nat) (entropy : Nat) : ObservationMatchingEnv × List Nat :=
  let p := Seeding.np_random s entropy
  ({ e with np_random := p.1 }, [p.2])

/-- `env.reset()`: draw a fresh observation vector, store it in
`self.state`, return it. -/
def ObservationMatchingEnv.reset (gen : Nat → Nat → ℚ)
    (e : ObservationMatchingEnv) : List ℚ × ObservationMatchingEnv :=
  let p := e.np_random.uniform gen e.num_options
  (p.1, { e with np_random := p.2, state := some p.1 })

/-- The tuple returned by `env.step(action)` (the `info` dict is always
empty and omitted), together with the successor environment. -/
structure StepResult where
  obs : List ℚ
  reward : ℚ
  done : Bool
  env : ObservationMatchingEnv
deriving DecidableEq, Repr

/-- `env.step(action)`: reward is the negated mean absolute difference of
the stored state and the action, the state is re-drawn, and the returned
`done` flag is the literal `False`.  Stepping before any `reset` reads the
unset `self.state` and raises in Python, modelled as `none`. -/
def ObservationMatchingEnv.step (gen : Nat → Nat → ℚ)
    (e : ObservationMatchingEnv) (action : List ℚ) : Option StepResult :=
  match e.state with
  | none => none
  | some st =>
    let reward : ℚ := -((List.zipWith (fun a b => |a - b|) st action).sum / st.length)
    let p := e.np_random.uniform gen e.num_options
    some ⟨p.1, reward, false, { e with np_random := p.2, state := some p.1 }⟩

/-- A call an external driver can make on the environment. -/
inductive EnvCall where
  | resetCall
  | stepCall (action : List ℚ)

/-- Perform one call, yielding the successor environment and the observable
output: the returned observation and, for a step, the returned reward.  A
step before any reset raises in Python; both the observation and reward
components are empty for that case. -/
def ObservationMatchingEnv.doCall (gen : Nat → Nat → ℚ)
    (e : ObservationMatchingEnv) :
    EnvCall → ObservationMatchingEnv × (List ℚ × Option ℚ)
  | EnvCall.resetCall => ((e.reset gen).2, ((e.reset gen).1, none))
  | EnvCall.stepCall a =>
    match e.step gen a with
    | some r => (r.env, (r.obs, some r.reward))
    | none => (e, ([], none))

/-- Run a sequence of calls, collecting every output in order. -/
def runCalls (gen : Nat → Nat → ℚ) :
    ObservationMatchingEnv → List EnvCall →
    ObservationMatchingEnv × List (List ℚ × Option ℚ)
  | e, [] => (e, [])
  | e, c :: cs =>
    let p := e.doCall gen c
    let q := runCalls gen p.1 cs
    (q.1, p.2 :: q.2)

/-- One rational lies in the half-open unit interval `[0, 1)`. -/
def inUnitIvl (q : ℚ) : Bool :=
  decide (0 ≤ q) && decide (q < 1)

/-- An observation vector matches the declared observation space
`Box(0, 1, shape=(n,))`: exactly `n` entries, each in `[0, 1)`. -/
def obsOKb (n : Nat) (v : List ℚ) : Bool :=
  (v.length == n) && v.all inUnitIvl

/-- The environment's stored state is a set vector matching the declared
observation space. -/
def stateOKb (n : Nat) (e : ObservationMatchingEnv) : Bool :=
  match e.state with
  | some v => obsOKb n v
  | none => false

/-- A concrete in-range sample stream, used by the witnesses. -/
def genHalf : Nat → Nat → ℚ := fun _ _ => 1 / 2

/-- A concrete environment with its state set, for exercising `step`. -/
def envW : ObservationMatchingEnv :=
  { num_options := 1, np_random := ⟨0, 0⟩, state := some [0] }

/-- The step result `envW.step genHalf [0]` evaluates to. -/
def stepW : StepResult :=
  { obs := [(1 : ℚ) / 2], reward := 0, done := false,
    env := { num_options := 1, np_random := ⟨0, 1⟩, state := some [(1 : ℚ) / 2] } }

/-! ## Helper lemmas for the environment model -/

theorem uniform_obsOK (gen : Nat → Nat → ℚ)
    (hgen : ∀ s i, 0 ≤ gen s i ∧ gen s i < 1) (r : NpRandom) (n : Nat) :
    obsOKb n (r.uniform gen n).1 = true := by
  unfold NpRandom.uniform obsOKb
  simp only [List.length_map, List.length_range, beq_self_eq_true, Bool.true_and]
  rw [List.all_eq_true]
  intro x hx
  rw [List.mem_map] at hx
  obtain ⟨i, _, rfl⟩ := hx
  unfold inUnitIvl
  rw [Bool.and_eq_true, decide_eq_true_eq, decide_eq_true_eq]
  exact hgen r.seedVal (r.counter + i)

theorem doCall_good (gen : Nat → Nat → ℚ)
    (hgen : ∀ s i, 0 ≤ gen s i ∧ gen s i < 1) (n : Nat)
    (e : ObservationMatchingEnv) (hn : e.num_options = n)
    (hok : stateOKb n e = true) (c : EnvCall) :
    (e.doCall gen c).1.num_options = n
    ∧ stateOKb n (e.doCall gen c).1 = true
    ∧ obsOKb n (e.doCall gen c).2.1 = true := by
  subst hn
  obtain ⟨no, rng, st⟩ := e
  cases c with
  | resetCall =>
    exact ⟨rfl, uniform_obsOK gen hgen rng no, uniform_obsOK gen hgen rng no⟩
  | stepCall a =>
    cases st with
    | none => exact Bool.noConfusion hok
    | some v =>
      exact ⟨rfl, uniform_obsOK gen hgen rng no, uniform_obsOK gen hgen rng no⟩

theorem runCalls_ok (gen : Nat → Nat → ℚ)
    (hgen : ∀ s i, 0 ≤ gen s i ∧ gen s i < 1) (n : Nat)
    (cs : List EnvCall) :
    ∀ (e : ObservationMatchingEnv), e.num_options = n → stateOKb n e = true →
      (runCalls gen e cs).1.num_options = n
      ∧ stateOKb n (runCalls gen e cs).1 = true
      ∧ ((runCalls gen e cs).2.all fun p => obsOKb n p.1) = true := by
  induction cs with
  | nil => intro e hn hok; exact ⟨hn, hok, rfl⟩
  | cons c cs ih =>
    intro e hn hok
    obtain ⟨h1, h2, h3⟩ := doCall_good gen hgen n e hn hok c
    obtain ⟨g1, g2, g3⟩ := ih (e.doCall gen c).1 h1 h2
    refine ⟨g1, g2, ?_⟩
    show ((e.doCall gen c).2 :: (runCalls gen (e.doCall gen c).1 cs).2).all
      (fun p => obsOKb n p.1) = true
    rw [List.all_cons, Bool.and_eq_true]
    exact ⟨h3, g3⟩

/-! ## Claims -/

/-- C1, counterexample: the claim says every entity appearing in the
notebooks is defined and implemented by an external library, never by code
in this repository; but the custom-environment tutorial itself defines the
environment entity `ObservationMatchingEnv`, a `gym.Env` subclass carrying
its own `reset`/`step` dynamics. -/
theorem claim_C1_counterexample :
    definesGymEnvSubclass (codeStmts customEnvNotebook) = true := by decide

/-- C1, amended: except for the example environment
`ObservationMatchingEnv` (a `gym.Env` subclass with its own `reset`/`step`
state dynamics) defined in the custom-environment tutorial, no notebook or
documentation example defines any class; every other entity and operation
comes from the external libraries. -/
theorem claim_C1_amended :
    classDefNames (codeStmts airlNotebook) = []
    ∧ classDefNames (codeStmts sqilNotebook) = []
    ∧ classDefNames airlDocsExample = []
    ∧ classDefNames (codeStmts customEnvNotebook) = ["ObservationMatchingEnv"]
    ∧ definesGymEnvSubclass (codeStmts customEnvNotebook) = true := by
  refine ⟨?_, ?_, ?_, ?_, ?_⟩ <;> decide

/-- C2, counterexample: the claim says no code cell implements or registers
a provider of the external interfaces; but the custom-environment tutorial
both defines a `gym.Env` implementation and registers it through
`gym.register`. -/
theorem claim_C2_counterexample :
    providesInterface (codeStmts customEnvNotebook) = true := by decide

/-- C2, amended: the AIRL and SQIL notebooks and the AIRL documentation
example act purely as consumers (no class definitions, no registry calls);
the single exception is the custom-environment tutorial, whose one
`gym.register` call registers the repository-defined
`ObservationMatchingEnv` under `custom/ObservationMatching-v0`. -/
theorem claim_C2_amended :
    providesInterface (codeStmts airlNotebook) = false
    ∧ providesInterface (codeStmts sqilNotebook) = false
    ∧ providesInterface airlDocsExample = false
    ∧ registerId (codeStmts customEnvNotebook) = some "custom/ObservationMatching-v0"
    ∧ registerEntryPoint (codeStmts customEnvNotebook) = some "ObservationMatchingEnv"
    ∧ (registerCallKwargs (codeStmts customEnvNotebook)).length = 1 := by
  refine ⟨?_, ?_, ?_, ?_, ?_, ?_⟩ <;> decide

/-- C3, counterexample: the claim says every tutorial's stages occur in the
fixed order with no later stage running before an earlier one; in the SQIL
notebook the stage sequence is not monotone in that order (expert
trajectories are loaded before the environment is constructed, and the
learner is evaluated before the training loop). -/
theorem claim_C3_counterexample :
    stageMonotone (stagesOf (codeStmts sqilNotebook)) = false := by decide

/-- C3, amended: in every tutorial the environment is constructed before the
learner, demonstrations are collected before the learner is constructed, the
learner is constructed before the training loop, the training loop precedes
the final evaluation, and evaluation is the last stage; when an expert
policy is acquired, the environment precedes it and it precedes the rollout
collection.  The fixed total order fails only in that every tutorial also
evaluates the untrained learner before the training loop, and the SQIL
tutorial loads its expert trajectories before constructing the
environment. -/
theorem claim_C3_amended :
    coreOrdered (stagesOf (codeStmts airlNotebook)) = true
    ∧ coreOrdered (stagesOf (codeStmts sqilNotebook)) = true
    ∧ coreOrdered (stagesOf (codeStmts customEnvNotebook)) = true
    ∧ occursBefore (· == Stage.evaluateLearner) (· == Stage.trainLoop)
        (stagesOf (codeStmts airlNotebook)) = true
    ∧ occursBefore (· == Stage.evaluateLearner) (· == Stage.trainLoop)
        (stagesOf (codeStmts sqilNotebook)) = true
    ∧ occursBefore (· == Stage.evaluateLearner) (· == Stage.trainLoop)
        (stagesOf (codeStmts customEnvNotebook)) = true
    ∧ occursBefore (· == Stage.collectRollouts) (· == Stage.constructEnv)
        (stagesOf (codeStmts sqilNotebook)) = true := by
  refine ⟨?_, ?_, ?_, ?_, ?_, ?_, ?_⟩ <;> decide

/-- C4: no code cell of any notebook, nor the documentation example,
contains a `try`/`except` construct at any nesting depth; exceptions from
the external library calls therefore propagate unhandled. -/
theorem claim_C4_no_error_handling :
    hasErrorHandling (codeStmts airlNotebook) = false
    ∧ hasErrorHandling (codeStmts sqilNotebook) = false
    ∧ hasErrorHandling (codeStmts customEnvNotebook) = false
    ∧ hasErrorHandling airlDocsExample = false := by
  refine ⟨?_, ?_, ?_, ?_⟩ <;> decide

/-- C5: every tutorial evaluates the trained learner after the training-loop
call and passes the resulting mean reward to a `print` statement in its
final code cell (the AIRL notebook prints `np.mean` of the returned episode
rewards; the other two print the scalar mean returned by
`evaluate_policy`). -/
theorem claim_C5_prints_mean_reward :
    printsMeanRewardAfterTraining airlNotebook "learner_rewards_after_training" = true
    ∧ printsMeanRewardAfterTraining sqilNotebook "reward_after_training" = true
    ∧ printsMeanRewardAfterTraining customEnvNotebook "reward_after_training" = true := by
  refine ⟨?_, ?_, ?_⟩ <;> decide

/-- C6, counterexample: the claim enumerates the chosen parallel-environment
counts as `n_envs=8`, `n_envs=4`, or a list of 4 constructors; but the SQIL
notebook's vectorized environment is built from a list of one constructor,
a count outside that enumeration. -/
theorem claim_C6_counterexample :
    ((vecEnvCounts (codeStmts sqilNotebook)).all fun k => k == 8 || k == 4)
      = false := by decide

/-- C6, amended: all parallelism lives behind the external
vectorized-environment constructors; the notebooks' only influence is the
literal count passed through (8 in the AIRL notebook and the AIRL docs
example, 4 twice in the custom-environment tutorial, and a list of one
constructor in the SQIL notebook), and no script imports any Python
concurrency module. -/
theorem claim_C6_amended :
    vecEnvCounts (codeStmts airlNotebook) = [8]
    ∧ vecEnvCounts airlDocsExample = [8]
    ∧ vecEnvCounts (codeStmts customEnvNotebook) = [4, 4]
    ∧ vecEnvCounts (codeStmts sqilNotebook) = [1]
    ∧ usesConcurrencyModule (codeStmts airlNotebook) = false
    ∧ usesConcurrencyModule (codeStmts sqilNotebook) = false
    ∧ usesConcurrencyModule (codeStmts customEnvNotebook) = false
    ∧ usesConcurrencyModule airlDocsExample = false := by
  refine ⟨?_, ?_, ?_, ?_, ?_, ?_, ?_, ?_⟩ <;> decide

/-- C7: provided the numpy generator's draws lie in `[0, 1)` (its documented
contract, the hypothesis on `gen`), then after a `reset` the stored state of
`ObservationMatchingEnv` is a vector of exactly `num_options` entries each in
`[0, 1)`; the invariant is preserved by every subsequent `step`,
re-established by every further `reset`, and every observation returned
along the way lies in the declared observation space
`Box(0, 1, shape=(num_options,))`. -/
theorem claim_C7_state_invariant (gen : Nat → Nat → ℚ)
    (hgen : ∀ s i, 0 ≤ gen s i ∧ gen s i < 1)
    (e : ObservationMatchingEnv) (cs : List EnvCall) :
    obsOKb e.num_options (e.reset gen).1 = true
    ∧ stateOKb e.num_options (runCalls gen (e.reset gen).2 cs).1 = true
    ∧ ((runCalls gen (e.reset gen).2 cs).2.all
        fun p => obsOKb e.num_options p.1) = true := by
  have hreset : stateOKb e.num_options (e.reset gen).2 = true :=
    uniform_obsOK gen hgen e.np_random e.num_options
  obtain ⟨_, g2, g3⟩ :=
    runCalls_ok gen hgen e.num_options cs (e.reset gen).2 rfl hreset
  exact ⟨uniform_obsOK gen hgen e.np_random e.num_options, g2, g3⟩

/-- C7 witness: the invariant theorem applied to a concrete environment with
two options, the constant in-range stream `genHalf`, and a run consisting of
a step and a further reset. -/
theorem claim_C7_witness :
    stateOKb 2 (runCalls genHalf
      ((ObservationMatchingEnv.init 2 0).reset genHalf).2
      [EnvCall.stepCall [0, 0], EnvCall.resetCall]).1 = true :=
  (claim_C7_state_invariant genHalf
    (fun s i => by constructor <;> norm_num [genHalf])
    (ObservationMatchingEnv.init 2 0)
    [EnvCall.stepCall [0, 0], EnvCall.resetCall]).2.1

/-- C8: whatever the state and action, every tuple `step` returns carries the
done flag `False` — the environment never ends an episode on its own — and
the only episode limit is the `max_episode_steps=500` that the notebook's
`gym.register` call hands to the external `TimeLimit` machinery. -/
theorem claim_C8_step_never_done :
    (∀ (gen : Nat → Nat → ℚ) (e : ObservationMatchingEnv) (a : List ℚ)
        (r : StepResult), e.step gen a = some r → r.done = false)
    ∧ registeredMaxEpisodeSteps (codeStmts customEnvNotebook) = some 500 := by
  constructor
  · intro gen e a r h
    obtain ⟨no, rng, st⟩ := e
    cases st with
    | none => exact Option.noConfusion h
    | some v =>
      obtain ⟨rfl⟩ := Option.some.inj h
      rfl
  · decide

/-- C8 witness: the theorem applied at the concrete environment `envW` with
action `[0]`, whose step result is `stepW`. -/
theorem claim_C8_witness : stepW.done = false :=
  claim_C8_step_never_done.1 genHalf envW [0] stepW (by
    simp only [ObservationMatchingEnv.step, envW, stepW, NpRandom.uniform, genHalf]
    norm_num [List.range_succ])

/-- C9: two `ObservationMatchingEnv` instances constructed with the same
`num_options` (under any construction-time entropy), then seeded with the
same non-None seed and driven by one identical sequence of `reset`/`step`
calls, return identical observations and identical rewards at every step. -/
theorem claim_C9_seed_determinism (gen : Nat → Nat → ℚ)
    (num_options sd ent1 ent2 ent1' ent2' : Nat) (cs : List EnvCall) :
    (runCalls gen
      ((ObservationMatchingEnv.init num_options ent1).seed (some sd) ent1').1 cs).2
    = (runCalls gen
      ((ObservationMatchingEnv.init num_options ent2).seed (some sd) ent2').1 cs).2 :=
  rfl
